import Mathlib

/-!
Shallow embedding of the Turtle Adventure game (`turtle_adventure.py`) and
verification of its specification claims.

Positions that only ever take rational values (canvas pixel coordinates,
`random.randint` results, the fencing enemy's integer trajectory) are
embedded over `ℚ`/`ℤ`; positions updated through trigonometric formulas
(chasing/boss enemies, the turtle player) are embedded over `ℝ`.
-/

namespace TurtleAdventure

/-! ## Home (`Home.contains`, source lines 128-134) -/

/-- `Home.contains(x, y)`:
`x1, x2 = self.x - size/2, self.x + size/2`; `y1, y2` likewise;
`return x1 <= x <= x2 and y1 <= y <= y2`. -/
def Home.contains (hx hy size x y : ℚ) : Bool :=
  decide (hx - size / 2 ≤ x ∧ x ≤ hx + size / 2) &&
  decide (hy - size / 2 ≤ y ∧ y ≤ hy + size / 2)

/-! ## Enemy (`Enemy.hits_player`, source lines 237-245) -/

/-- `Enemy.hits_player()`:
`(self.x - size/2 < player.x < self.x + size/2) and
 (self.y - size/2 < player.y < self.y + size/2)`.
Note the strict inequalities. -/
def Enemy.hits_player (ex ey size px py : ℚ) : Bool :=
  decide (ex - size / 2 < px ∧ px < ex + size / 2) &&
  decide (ey - size / 2 < py ∧ py < ey + size / 2)

/-! ## EnemyGenerator (`EnemyGenerator.create_enemy`, source lines 506-544) -/

/-- `min_distance = max(250 - (self.level * 10), 100)` (line 528). -/
def EnemyGenerator.min_distance (level : ℤ) : ℤ :=
  max (250 - level * 10) 100

/-- The spawn-rejection test of the `while True` loop (lines 533-538):
`distance_to_player = ((rx - px)**2 + (ry - py)**2) ** 0.5;
 if distance_to_player >= min_distance: break`.
Since both sides are nonnegative, `sqrt d2 >= m` is equivalent to
`d2 >= m^2`; the squared form keeps the test decidable.  The theorem
`EnemyGenerator.far_enough_iff_sqrt` proves this equivalence against the
source's square-root formulation. -/
def EnemyGenerator.far_enough (px py : ℚ) (rx ry : ℤ) (m : ℤ) : Bool :=
  decide (((rx : ℚ) - px) ^ 2 + ((ry : ℚ) - py) ^ 2 ≥ (m : ℚ) ^ 2)

/-- The spawn-point selection of `create_enemy` (lines 527-541):
if `level % 4 == 3` the spawn is `(home.x + 50, home.y + 50)`; otherwise
the loop keeps drawing random candidates until one is at least
`min_distance` from the player.  The candidate stream is abstracted as the
list `cands` of `random.randint` pairs; `none` models a stream whose
candidates are all rejected. -/
def EnemyGenerator.spawn_point (level : ℤ) (homeX homeY : ℤ) (px py : ℚ)
    (cands : List (ℤ × ℤ)) : Option (ℤ × ℤ) :=
  if level % 4 = 3 then
    some (homeX + 50, homeY + 50)
  else
    cands.find? fun c =>
      EnemyGenerator.far_enough px py c.1 c.2 (EnemyGenerator.min_distance level)

/-- The rescheduling delay of `create_enemy` (line 544):
`self.game.after(max(200, 1000 - self.level * 10), self.create_enemy)`. -/
def EnemyGenerator.reschedule_delay (level : ℤ) : ℤ :=
  max 200 (1000 - level * 10)

/-! ## RandomWalkEnemy (source lines 280-335) -/

/-- Horizontal movement state: `self.__state_x` is one of the bound methods
`moving_right` / `moving_left`. -/
inductive HDir where
  | moving_right
  | moving_left
deriving DecidableEq

/-- Vertical movement state: `self.__state_y` is one of the bound methods
`moving_up` / `moving_down`. -/
inductive VDir where
  | moving_up
  | moving_down
deriving DecidableEq

/-- The mutable fields of a `RandomWalkEnemy` that its movement touches. -/
structure RWState where
  x : ℚ
  y : ℚ
  dirX : HDir
  dirY : VDir
deriving DecidableEq

/-- `self.speed = 3` (line 292). -/
def RandomWalkEnemy.speed : ℚ := 3

/-- One call of the current `__state_x` method (lines 311-319):
`moving_right` does `move_to(x + speed, y)` and switches to `moving_left`
when `x > canvas.winfo_width()`; `moving_left` does `move_to(x - speed, y)`
and switches to `moving_right` when `x < 0`. -/
def RandomWalkEnemy.step_x (width : ℚ) (s : RWState) : RWState :=
  match s.dirX with
  | .moving_right =>
      let s' := { s with x := s.x + RandomWalkEnemy.speed }
      if s'.x > width then { s' with dirX := .moving_left } else s'
  | .moving_left =>
      let s' := { s with x := s.x - RandomWalkEnemy.speed }
      if s'.x < 0 then { s' with dirX := .moving_right } else s'

/-- One call of the current `__state_y` method (lines 301-309):
`moving_up` does `move_to(x, y + speed)` and switches to `moving_down` when
`y > canvas.winfo_height()`; `moving_down` does `move_to(x, y - speed)` and
switches to `moving_up` when `y < 0`. -/
def RandomWalkEnemy.step_y (height : ℚ) (s : RWState) : RWState :=
  match s.dirY with
  | .moving_up =>
      let s' := { s with y := s.y + RandomWalkEnemy.speed }
      if s'.y > height then { s' with dirY := .moving_down } else s'
  | .moving_down =>
      let s' := { s with y := s.y - RandomWalkEnemy.speed }
      if s'.y < 0 then { s' with dirY := .moving_up } else s'

/-- `RandomWalkEnemy.update` (lines 328-332): `self.__state_x()` then
`self.__state_y()` (the subsequent `hits_player` check does not move the
enemy). -/
def RandomWalkEnemy.update (width height : ℚ) (s : RWState) : RWState :=
  RandomWalkEnemy.step_y height (RandomWalkEnemy.step_x width s)

/-! ## FencingEnemy (source lines 371-421) -/

/-- The mutable fields of a `FencingEnemy` that its movement touches:
position and `self.current_direction_index` (always reduced mod 4). -/
structure FenceState where
  x : ℚ
  y : ℚ
  current_direction_index : Fin 4
deriving DecidableEq

/-- `self.speed = 5` (line 381). -/
def FencingEnemy.speed : ℚ := 5

/-- `self.distance_from_home = 50` (line 384). -/
def FencingEnemy.distance_from_home : ℚ := 50

/-- `self.directions = ["right", "down", "left", "up"]` (line 382). -/
def FencingEnemy.directions : List String :=
  ["right", "down", "left", "up"]

/-- `FencingEnemy.update` (lines 389-408): move by `speed` in the current
direction and advance `current_direction_index` by `(i + 1) % 4` when the
moved coordinate passes the corresponding `home ± distance_from_home` line
(the trailing `hits_player` check does not move the enemy). -/
def FencingEnemy.update (hx hy : ℚ) (s : FenceState) : FenceState :=
  let direction := FencingEnemy.directions.getD s.current_direction_index.val ""
  if direction = "right" then
    let x := s.x + FencingEnemy.speed
    if x ≥ hx + FencingEnemy.distance_from_home then
      { s with x := x, current_direction_index := s.current_direction_index + 1 }
    else
      { s with x := x }
  else if direction = "down" then
    let y := s.y + FencingEnemy.speed
    if y ≥ hy + FencingEnemy.distance_from_home then
      { s with y := y, current_direction_index := s.current_direction_index + 1 }
    else
      { s with y := y }
  else if direction = "left" then
    let x := s.x - FencingEnemy.speed
    if x ≤ hx - FencingEnemy.distance_from_home then
      { s with x := x, current_direction_index := s.current_direction_index + 1 }
    else
      { s with x := x }
  else if direction = "up" then
    let y := s.y - FencingEnemy.speed
    if y ≤ hy - FencingEnemy.distance_from_home then
      { s with y := y, current_direction_index := s.current_direction_index + 1 }
    else
      { s with y := y }
  else
    s

/-- The `FencingEnemy` constructor (lines 375-387): start at
`(home.x + distance_from_home, home.y + distance_from_home)` with direction
index 0, then call `self.update()` once. -/
def FencingEnemy.init (hx hy : ℚ) : FenceState :=
  FencingEnemy.update hx hy
    { x := hx + FencingEnemy.distance_from_home
      y := hy + FencingEnemy.distance_from_home
      current_direction_index := 0 }

/-! ## Trigonometric movement (`math.atan2` bearings) -/

/-- Python's `math.atan2(y, x)`: the argument of the complex number
`x + y*i` (in particular `atan2 0 0 = 0`, as in Python). -/
noncomputable def atan2 (y x : ℝ) : ℝ :=
  Complex.arg ⟨x, y⟩

/-- The mutable fields of a `ChasingEnemy` that its movement touches
(`self.speed = 3` at construction, line 348). -/
structure ChaseState where
  x : ℝ
  y : ℝ
  speed : ℝ

/-- `ChasingEnemy.update` (lines 353-358):
`angle = atan2(player.y - y, player.x - x); x += speed*cos(angle);
y += speed*sin(angle)` (the trailing `hits_player` check does not move the
enemy). -/
noncomputable def ChasingEnemy.update (px py : ℝ) (s : ChaseState) : ChaseState :=
  let angle := atan2 (py - s.y) (px - s.x)
  { s with
    x := s.x + s.speed * Real.cos angle
    y := s.y + s.speed * Real.sin angle }

/-- The mutable fields of a `BossEnemy` that its `update` touches. -/
structure BossState where
  x : ℝ
  y : ℝ
  size : ℝ
  speed : ℝ

/-- `self.growth_rate = 0.7` (line 442). -/
noncomputable def BossEnemy.growth_rate : ℝ := 0.7

/-- `self.num_fake_homes = 5` (line 440). -/
def BossEnemy.num_fake_homes : ℕ := 5

/-- `BossEnemy.update` (lines 444-451): chase like `ChasingEnemy`, then
`size += growth_rate; speed += 0.001` (movement uses the pre-increment
speed; the trailing `hits_player` check does not move the enemy). -/
noncomputable def BossEnemy.update (px py : ℝ) (s : BossState) : BossState :=
  let angle := atan2 (py - s.y) (px - s.x)
  { x := s.x + s.speed * Real.cos angle
    y := s.y + s.speed * Real.sin angle
    size := s.size + BossEnemy.growth_rate
    speed := s.speed + 0.001 }

/-! ## Game elements (`game.add_element`) -/

/-- A game element as far as the element list is concerned: `Home`
instances (position and size, integers as produced by `random.randint` and
the level setup) versus everything else. -/
inductive GameElem where
  | home (x y : ℤ) (size : ℤ)
  | enemy
  | other
deriving DecidableEq

/-- Whether an element is a `Home` instance. -/
def GameElem.isHome : GameElem → Bool
  | .home _ _ _ => true
  | _ => false

/-- Elements added to the game by `BossEnemy.__init__` (lines 433-442):
the constructor body performs no `add_element` call at all. -/
def BossEnemy.init_added_elements : List GameElem := []

/-- `BossEnemy.generate_fake_homes` (lines 453-461): append
`num_fake_homes` fake `Home`s of size 20 at random canvas positions (the
`i`-th drawn `randint` pair is `rand i`) to the game's element list. -/
def BossEnemy.generate_fake_homes (rand : ℕ → ℤ × ℤ)
    (elements : List GameElem) : List GameElem :=
  elements ++ (List.range BossEnemy.num_fake_homes).map
    (fun i => GameElem.home (rand i).1 (rand i).2 20)

/-- The element-list effect of the `level_mod == 0` (boss) branch of
`EnemyGenerator.create_enemy` (lines 521-525, 542): construct the boss
(which adds no elements), call `generate_fake_homes`, then `add_enemy`
appends the boss itself to the game. -/
def EnemyGenerator.create_enemy_boss_elements (rand : ℕ → ℤ × ℤ)
    (elements : List GameElem) : List GameElem :=
  (BossEnemy.generate_fake_homes rand
    (elements ++ BossEnemy.init_added_elements)) ++ [GameElem.enemy]

/-! ## Player (`Player.update`, source lines 173-183) -/

/-- `Home.contains` over the reals, for the player's (turtle-valued)
position: the same closed-box test as `Home.contains` (lines 128-134). -/
def Home.containsP (hx hy size x y : ℝ) : Prop :=
  (hx - size / 2 ≤ x ∧ x ≤ hx + size / 2) ∧ (hy - size / 2 ≤ y ∧ y ≤ hy + size / 2)

noncomputable instance Home.containsP.instDecidable (hx hy size x y : ℝ) :
    Decidable (Home.containsP hx hy size x y) := by
  unfold Home.containsP
  infer_instance

/-- The game state as seen by `Player.update`: the player's turtle position
and speed, the waypoint, the single real home (`game.home`), the game's
element list (where fake homes end up), and whether `game_over_win` has
been invoked. -/
structure PlayerGame where
  px : ℝ
  py : ℝ
  speed : ℝ
  wayActive : Bool
  wx : ℝ
  wy : ℝ
  homeX : ℝ
  homeY : ℝ
  homeSize : ℝ
  elements : List GameElem
  winTriggered : Bool

/-- `Player.update` (lines 173-183):
`if home.contains(x, y): game_over_win()`; then, if the waypoint is active,
`setheading(towards(waypoint))`, `forward(speed)` (a displacement of
`speed` along the `atan2` bearing to the waypoint), and
`if distance(waypoint) < speed: waypoint.deactivate()`. Only `game.home`
is consulted for the win check. -/
noncomputable def Player.update (g : PlayerGame) : PlayerGame :=
  let win : Bool := g.winTriggered ||
    decide (Home.containsP g.homeX g.homeY g.homeSize g.px g.py)
  if g.wayActive then
    let angle := atan2 (g.wy - g.py) (g.wx - g.px)
    let px' := g.px + g.speed * Real.cos angle
    let py' := g.py + g.speed * Real.sin angle
    let active' : Bool :=
      if Real.sqrt ((px' - g.wx) ^ 2 + (py' - g.wy) ^ 2) < g.speed then false
      else g.wayActive
    { g with px := px', py := py', wayActive := active', winTriggered := win }
  else
    { g with winTriggered := win }

/-- Inductive invariant of the fencing trajectory, relative to the home.
On each leg the moving coordinate stays within `[-50, 50]` before the step
and within `[-55, 55]` after a boundary crossing, while the frozen
coordinate keeps the (possibly overshot) value it had when its leg ended. -/
def FencingEnemy.inv (hx hy : ℚ) (s : FenceState) : Prop :=
  if s.current_direction_index = 0 then
    (hx - 55 ≤ s.x ∧ s.x ≤ hx + 50) ∧ (hy - 55 ≤ s.y ∧ s.y ≤ hy - 50)
  else if s.current_direction_index = 1 then
    (hx + 50 ≤ s.x ∧ s.x ≤ hx + 55) ∧ (hy - 55 ≤ s.y ∧ s.y ≤ hy + 50)
  else if s.current_direction_index = 2 then
    (hx - 50 ≤ s.x ∧ s.x ≤ hx + 55) ∧ (hy + 50 ≤ s.y ∧ s.y ≤ hy + 55)
  else
    (hx - 55 ≤ s.x ∧ s.x ≤ hx - 50) ∧ (hy - 50 ≤ s.y ∧ s.y ≤ hy + 55)

end TurtleAdventure

namespace TurtleAdventure

/-! ## Helper lemmas -/

/-- The squared spawn test agrees with the source's square-root comparison. -/
theorem EnemyGenerator.far_enough_iff_sqrt (px py : ℚ) (rx ry : ℤ) (m : ℤ)
    (hm : 0 ≤ m) :
    EnemyGenerator.far_enough px py rx ry m = true ↔
      Real.sqrt (((rx : ℝ) - (px : ℝ)) ^ 2 + ((ry : ℝ) - (py : ℝ)) ^ 2) ≥ (m : ℝ) := by
  unfold EnemyGenerator.far_enough
  rw [decide_eq_true_iff]
  constructor
  · intro h
    have h' : ((m : ℝ)) ^ 2 ≤ ((rx : ℝ) - (px : ℝ)) ^ 2 + ((ry : ℝ) - (py : ℝ)) ^ 2 := by
      have := (Rat.cast_le (K := ℝ)).mpr h
      push_cast at this ⊢
      linarith
    calc (m : ℝ) = Real.sqrt ((m : ℝ) ^ 2) := by
          rw [Real.sqrt_sq (by exact_mod_cast hm)]
      _ ≤ Real.sqrt (((rx : ℝ) - (px : ℝ)) ^ 2 + ((ry : ℝ) - (py : ℝ)) ^ 2) :=
          Real.sqrt_le_sqrt h'
  · intro h
    have hnn : (0 : ℝ) ≤ ((rx : ℝ) - (px : ℝ)) ^ 2 + ((ry : ℝ) - (py : ℝ)) ^ 2 := by positivity
    have h2 : ((m : ℝ)) ^ 2 ≤ ((rx : ℝ) - (px : ℝ)) ^ 2 + ((ry : ℝ) - (py : ℝ)) ^ 2 := by
      have := Real.sq_sqrt hnn
      calc ((m : ℝ)) ^ 2
          ≤ Real.sqrt (((rx : ℝ) - (px : ℝ)) ^ 2 + ((ry : ℝ) - (py : ℝ)) ^ 2) ^ 2 := by
            apply pow_le_pow_left₀ (by exact_mod_cast hm) h
        _ = _ := this
    rw [ge_iff_le, ← Rat.cast_le (K := ℝ)]
    push_cast at h2 ⊢
    linarith

/-! ## Claim theorems: C1, C2, C8 -/

/-- C1 (corrected): when `level % 4 ≠ 3`, any spawn point the rejection loop
returns is at Euclidean distance at least `min_distance = max(250 - 10*level, 100)`
from the player; when `level % 4 = 3`, the enemy spawns at
`(home.x + 50, home.y + 50)` regardless of the player's position. -/
theorem C1_spawn_point_distance (level homeX homeY : ℤ) (px py : ℚ)
    (cands : List (ℤ × ℤ)) :
    (level % 4 = 3 →
      EnemyGenerator.spawn_point level homeX homeY px py cands =
        some (homeX + 50, homeY + 50)) ∧
    (level % 4 ≠ 3 → ∀ p : ℤ × ℤ,
      EnemyGenerator.spawn_point level homeX homeY px py cands = some p →
      Real.sqrt (((p.1 : ℝ) - (px : ℝ)) ^ 2 + ((p.2 : ℝ) - (py : ℝ)) ^ 2) ≥
        ((EnemyGenerator.min_distance level : ℤ) : ℝ)) := by
  constructor
  · intro h3
    unfold EnemyGenerator.spawn_point
    rw [if_pos h3]
  · intro h3 p hp
    unfold EnemyGenerator.spawn_point at hp
    rw [if_neg h3] at hp
    have hfar := List.find?_some hp
    rw [EnemyGenerator.far_enough_iff_sqrt] at hfar
    · exact hfar
    · unfold EnemyGenerator.min_distance
      exact le_trans (by norm_num) (le_max_right _ 100)

/-- Witness for C1: level 2 with candidate `(300, 0)` and player at the
origin; the returned spawn point is at distance `300 ≥ min_distance 2 = 230`. -/
theorem C1_spawn_point_distance_witness :
    Real.sqrt ((((300 : ℤ) : ℝ) - ((0 : ℚ) : ℝ)) ^ 2 +
        (((0 : ℤ) : ℝ) - ((0 : ℚ) : ℝ)) ^ 2) ≥
      ((EnemyGenerator.min_distance 2 : ℤ) : ℝ) := by
  have hfind : EnemyGenerator.spawn_point 2 0 0 0 0 [(300, 0)] = some (300, 0) := by
    unfold EnemyGenerator.spawn_point
    rw [if_neg (by decide)]
    rw [List.find?_cons_of_pos]
    unfold EnemyGenerator.far_enough
    rw [show EnemyGenerator.min_distance 2 = 230 by decide]
    rw [decide_eq_true_eq]
    norm_num
  exact (C1_spawn_point_distance 2 0 0 0 0 [(300, 0)]).2 (by decide) (300, 0) hfind

/-- Counterexample to C1 as stated: at level 3 (where `level % 4 = 3`) with the
home at the origin and the player at `(50, 50)`, the enemy spawns exactly on
the player, at distance `0 < min_distance 3 = 220`. -/
theorem C1_counterexample :
    EnemyGenerator.spawn_point 3 0 0 50 50 [] = some (50, 50) ∧
    ¬ (Real.sqrt ((((50 : ℤ) : ℝ) - ((50 : ℚ) : ℝ)) ^ 2 +
          (((50 : ℤ) : ℝ) - ((50 : ℚ) : ℝ)) ^ 2) ≥
        ((EnemyGenerator.min_distance 3 : ℤ) : ℝ)) := by
  refine ⟨by decide, ?_⟩
  intro h
  rw [show (((50 : ℤ) : ℝ) - ((50 : ℚ) : ℝ)) ^ 2 +
        (((50 : ℤ) : ℝ) - ((50 : ℚ) : ℝ)) ^ 2 = 0 by norm_num,
    Real.sqrt_zero] at h
  rw [show EnemyGenerator.min_distance 3 = 220 by decide] at h
  norm_num at h

/-- C2 (corrected): `Home.contains` is the closed box of side `size` centered
at the home (boundary included), while `Enemy.hits_player` is the open box of
side `size` centered at the enemy (boundary excluded). -/
theorem C2_containment_boxes (hx hy size x y ex ey px py : ℚ) :
    (Home.contains hx hy size x y = true ↔
      |x - hx| ≤ size / 2 ∧ |y - hy| ≤ size / 2) ∧
    (Enemy.hits_player ex ey size px py = true ↔
      |px - ex| < size / 2 ∧ |py - ey| < size / 2) := by
  constructor
  · simp only [Home.contains, Bool.and_eq_true, decide_eq_true_iff, abs_le]
    constructor
    · rintro ⟨⟨h1, h2⟩, h3, h4⟩
      exact ⟨⟨by linarith, by linarith⟩, by linarith, by linarith⟩
    · rintro ⟨⟨h1, h2⟩, h3, h4⟩
      exact ⟨⟨by linarith, by linarith⟩, by linarith, by linarith⟩
  · simp only [Enemy.hits_player, Bool.and_eq_true, decide_eq_true_iff, abs_lt]
    constructor
    · rintro ⟨⟨h1, h2⟩, h3, h4⟩
      exact ⟨⟨by linarith, by linarith⟩, by linarith, by linarith⟩
    · rintro ⟨⟨h1, h2⟩, h3, h4⟩
      exact ⟨⟨by linarith, by linarith⟩, by linarith, by linarith⟩

/-- Counterexample to C2 as stated: an enemy at the origin with size 20 and
the player exactly on the box edge at `(10, 0)`: the point lies in the closed
box, but `hits_player` returns `false` (the check is strict). -/
theorem C2_counterexample :
    Enemy.hits_player 0 0 20 10 0 = false ∧
    ((0 : ℚ) - 20 / 2 ≤ 10 ∧ (10 : ℚ) ≤ 0 + 20 / 2 ∧
     (0 : ℚ) - 20 / 2 ≤ 0 ∧ (0 : ℚ) ≤ 0 + 20 / 2) := by
  refine ⟨?_, by norm_num⟩
  unfold Enemy.hits_player
  rw [Bool.and_eq_false_iff]
  left
  rw [decide_eq_false_iff_not]
  norm_num

/-- C8 (confirmed): the enemy generator reschedules itself after
`max(200, 1000 - 10*level)` milliseconds, which is nonincreasing in the level
and never drops below 200. -/
theorem C8_reschedule_delay (level level' : ℤ) (h : level ≤ level') :
    EnemyGenerator.reschedule_delay level = max 200 (1000 - level * 10) ∧
    EnemyGenerator.reschedule_delay level' ≤ EnemyGenerator.reschedule_delay level ∧
    200 ≤ EnemyGenerator.reschedule_delay level := by
  refine ⟨rfl, ?_, le_max_left _ _⟩
  unfold EnemyGenerator.reschedule_delay
  omega

/-- Witness for C8 at levels 3 ≤ 7. -/
theorem C8_reschedule_delay_witness :
    EnemyGenerator.reschedule_delay 3 = max 200 (1000 - 3 * 10) ∧
    EnemyGenerator.reschedule_delay 7 ≤ EnemyGenerator.reschedule_delay 3 ∧
    200 ≤ EnemyGenerator.reschedule_delay 3 :=
  C8_reschedule_delay 3 7 (by decide)

/-! ## FencingEnemy lemmas -/

/-- Direction index 0 ("right"): move right, flip past `home.x + 50`. -/
theorem FencingEnemy.update_dir0 (hx hy x y : ℚ) :
    FencingEnemy.update hx hy ⟨x, y, 0⟩ =
      if x + 5 ≥ hx + 50 then ⟨x + 5, y, 1⟩ else ⟨x + 5, y, 0⟩ := rfl

/-- Direction index 1 ("down"): move down, flip past `home.y + 50`. -/
theorem FencingEnemy.update_dir1 (hx hy x y : ℚ) :
    FencingEnemy.update hx hy ⟨x, y, 1⟩ =
      if y + 5 ≥ hy + 50 then ⟨x, y + 5, 2⟩ else ⟨x, y + 5, 1⟩ := rfl

/-- Direction index 2 ("left"): move left, flip past `home.x - 50`. -/
theorem FencingEnemy.update_dir2 (hx hy x y : ℚ) :
    FencingEnemy.update hx hy ⟨x, y, 2⟩ =
      if x - 5 ≤ hx - 50 then ⟨x - 5, y, 3⟩ else ⟨x - 5, y, 2⟩ := rfl

/-- Direction index 3 ("up"): move up, flip past `home.y - 50`. -/
theorem FencingEnemy.update_dir3 (hx hy x y : ℚ) :
    FencingEnemy.update hx hy ⟨x, y, 3⟩ =
      if y - 5 ≤ hy - 50 then ⟨x, y - 5, 0⟩ else ⟨x, y - 5, 3⟩ := rfl

/-- The constructed state: the constructor's own `update()` call has already
overshot the fence corner by one step, to `x = home.x + 55`. -/
theorem FencingEnemy.init_eq (hx hy : ℚ) :
    FencingEnemy.init hx hy = ⟨hx + 55, hy + 50, 1⟩ := by
  unfold FencingEnemy.init
  rw [show (FencingEnemy.distance_from_home : ℚ) = 50 from rfl]
  rw [FencingEnemy.update_dir0, if_pos (by linarith)]
  simp only [FenceState.mk.injEq]
  exact ⟨by ring, trivial, trivial⟩

/-- The fencing invariant is preserved by one update step. -/
theorem FencingEnemy.inv_update (hx hy : ℚ) (s : FenceState)
    (h : FencingEnemy.inv hx hy s) :
    FencingEnemy.inv hx hy (FencingEnemy.update hx hy s) := by
  obtain ⟨x, y, i⟩ := s
  fin_cases i
  · replace h : FencingEnemy.inv hx hy ⟨x, y, 0⟩ := h
    show FencingEnemy.inv hx hy (FencingEnemy.update hx hy ⟨x, y, 0⟩)
    unfold FencingEnemy.inv at h
    dsimp only at h
    rw [if_pos (by decide)] at h
    obtain ⟨⟨h1, h2⟩, h3, h4⟩ := h
    rw [FencingEnemy.update_dir0]
    split_ifs with hc
    · unfold FencingEnemy.inv
      dsimp only
      rw [if_neg (by decide), if_pos (by decide)]
      exact ⟨⟨by linarith, by linarith⟩, by linarith, by linarith⟩
    · unfold FencingEnemy.inv
      dsimp only
      rw [if_pos (by decide)]
      exact ⟨⟨by linarith, by linarith⟩, by linarith, by linarith⟩
  · replace h : FencingEnemy.inv hx hy ⟨x, y, 1⟩ := h
    show FencingEnemy.inv hx hy (FencingEnemy.update hx hy ⟨x, y, 1⟩)
    unfold FencingEnemy.inv at h
    dsimp only at h
    rw [if_neg (by decide), if_pos (by decide)] at h
    obtain ⟨⟨h1, h2⟩, h3, h4⟩ := h
    rw [FencingEnemy.update_dir1]
    split_ifs with hc
    · unfold FencingEnemy.inv
      dsimp only
      rw [if_neg (by decide), if_neg (by decide), if_pos (by decide)]
      exact ⟨⟨by linarith, by linarith⟩, by linarith, by linarith⟩
    · unfold FencingEnemy.inv
      dsimp only
      rw [if_neg (by decide), if_pos (by decide)]
      exact ⟨⟨by linarith, by linarith⟩, by linarith, by linarith⟩
  · replace h : FencingEnemy.inv hx hy ⟨x, y, 2⟩ := h
    show FencingEnemy.inv hx hy (FencingEnemy.update hx hy ⟨x, y, 2⟩)
    unfold FencingEnemy.inv at h
    dsimp only at h
    rw [if_neg (by decide), if_neg (by decide), if_pos (by decide)] at h
    obtain ⟨⟨h1, h2⟩, h3, h4⟩ := h
    rw [FencingEnemy.update_dir2]
    split_ifs with hc
    · unfold FencingEnemy.inv
      dsimp only
      rw [if_neg (by decide), if_neg (by decide), if_neg (by decide)]
      exact ⟨⟨by linarith, by linarith⟩, by linarith, by linarith⟩
    · unfold FencingEnemy.inv
      dsimp only
      rw [if_neg (by decide), if_neg (by decide), if_pos (by decide)]
      exact ⟨⟨by linarith, by linarith⟩, by linarith, by linarith⟩
  · replace h : FencingEnemy.inv hx hy ⟨x, y, 3⟩ := h
    show FencingEnemy.inv hx hy (FencingEnemy.update hx hy ⟨x, y, 3⟩)
    unfold FencingEnemy.inv at h
    dsimp only at h
    rw [if_neg (by decide), if_neg (by decide), if_neg (by decide)] at h
    obtain ⟨⟨h1, h2⟩, h3, h4⟩ := h
    rw [FencingEnemy.update_dir3]
    split_ifs with hc
    · unfold FencingEnemy.inv
      dsimp only
      rw [if_pos (by decide)]
      exact ⟨⟨by linarith, by linarith⟩, by linarith, by linarith⟩
    · unfold FencingEnemy.inv
      dsimp only
      rw [if_neg (by decide), if_neg (by decide), if_neg (by decide)]
      exact ⟨⟨by linarith, by linarith⟩, by linarith, by linarith⟩

/-- The fencing invariant holds at the constructed state. -/
theorem FencingEnemy.inv_init (hx hy : ℚ) :
    FencingEnemy.inv hx hy (FencingEnemy.init hx hy) := by
  rw [FencingEnemy.init_eq]
  unfold FencingEnemy.inv
  dsimp only
  rw [if_neg (by decide), if_pos (by decide)]
  exact ⟨⟨by linarith, by linarith⟩, by linarith, by linarith⟩

/-- The fencing invariant holds on the whole trajectory. -/
theorem FencingEnemy.inv_iterate (hx hy : ℚ) (n : ℕ) :
    FencingEnemy.inv hx hy
      ((FencingEnemy.update hx hy)^[n] (FencingEnemy.init hx hy)) := by
  induction n with
  | zero => simpa using FencingEnemy.inv_init hx hy
  | succ n ih =>
      rw [Function.iterate_succ_apply']
      exact FencingEnemy.inv_update hx hy _ ih

/-- Each fencing update keeps the direction index or advances it by one
(cyclically `right → down → left → up → right`, per the `directions` list). -/
theorem FencingEnemy.update_index_step (hx hy : ℚ) (s : FenceState) :
    (FencingEnemy.update hx hy s).current_direction_index =
        s.current_direction_index ∨
    (FencingEnemy.update hx hy s).current_direction_index =
        s.current_direction_index + 1 := by
  obtain ⟨x, y, i⟩ := s
  fin_cases i
  · show (FencingEnemy.update hx hy ⟨x, y, 0⟩).current_direction_index = 0 ∨
      (FencingEnemy.update hx hy ⟨x, y, 0⟩).current_direction_index = 0 + 1
    rw [FencingEnemy.update_dir0]
    split_ifs <;> [right; left] <;> rfl
  · show (FencingEnemy.update hx hy ⟨x, y, 1⟩).current_direction_index = 1 ∨
      (FencingEnemy.update hx hy ⟨x, y, 1⟩).current_direction_index = 1 + 1
    rw [FencingEnemy.update_dir1]
    split_ifs <;> [right; left] <;> rfl
  · show (FencingEnemy.update hx hy ⟨x, y, 2⟩).current_direction_index = 2 ∨
      (FencingEnemy.update hx hy ⟨x, y, 2⟩).current_direction_index = 2 + 1
    rw [FencingEnemy.update_dir2]
    split_ifs <;> [right; left] <;> rfl
  · show (FencingEnemy.update hx hy ⟨x, y, 3⟩).current_direction_index = 3 ∨
      (FencingEnemy.update hx hy ⟨x, y, 3⟩).current_direction_index = 3 + 1
    rw [FencingEnemy.update_dir3]
    split_ifs <;> [right; left] <;> rfl

/-! ## Claim C6 -/

/-- C6 (corrected): every state a `FencingEnemy` reaches from its
constructed state stays within `distance_from_home + speed = 55` of the home
on both axes (the bound 50 of the claim is overshot by one `speed`-step at
each fence corner), and each update either keeps the direction index or
advances it cyclically through `right, down, left, up` in order. -/
theorem C6_fencing_bounded_cycle (hx hy : ℚ) (n : ℕ) :
    (|((FencingEnemy.update hx hy)^[n] (FencingEnemy.init hx hy)).x - hx| ≤
        FencingEnemy.distance_from_home + FencingEnemy.speed ∧
     |((FencingEnemy.update hx hy)^[n] (FencingEnemy.init hx hy)).y - hy| ≤
        FencingEnemy.distance_from_home + FencingEnemy.speed) ∧
    (∀ s : FenceState,
      (FencingEnemy.update hx hy s).current_direction_index =
          s.current_direction_index ∨
      (FencingEnemy.update hx hy s).current_direction_index =
          s.current_direction_index + 1) := by
  refine ⟨?_, fun s => FencingEnemy.update_index_step hx hy s⟩
  have h := FencingEnemy.inv_iterate hx hy n
  rw [show (FencingEnemy.distance_from_home : ℚ) + FencingEnemy.speed = 55 by
    norm_num [FencingEnemy.distance_from_home, FencingEnemy.speed]]
  set s := (FencingEnemy.update hx hy)^[n] (FencingEnemy.init hx hy) with hs
  unfold FencingEnemy.inv at h
  split_ifs at h <;>
    obtain ⟨⟨h1, h2⟩, h3, h4⟩ := h <;>
    rw [abs_le, abs_le] <;>
    exact ⟨⟨by linarith, by linarith⟩, by linarith, by linarith⟩

/-- Counterexample to C6 as stated: with the home at the origin, the
constructed state itself (the constructor moves once) is at `x = 55`,
farther than `distance_from_home = 50` from the home. -/
theorem C6_counterexample :
    (FencingEnemy.init 0 0).x = 55 ∧
    ¬ (|(FencingEnemy.init 0 0).x - 0| ≤ FencingEnemy.distance_from_home) := by
  rw [FencingEnemy.init_eq]
  dsimp only
  rw [show (FencingEnemy.distance_from_home : ℚ) = 50 from rfl]
  norm_num

/-! ## Claim C5 -/

/-- C5 (corrected): a random-walk enemy never wraps around; each axis moves
by exactly the speed (3) in its current direction, and the direction on that
axis reverses exactly when the moved coordinate passes the corresponding
canvas edge. -/
theorem C5_random_walk_reverses (width height : ℚ) (s : RWState) :
    ((RandomWalkEnemy.step_x width s).y = s.y ∧
     (RandomWalkEnemy.step_x width s).dirY = s.dirY ∧
     (s.dirX = HDir.moving_right →
       (RandomWalkEnemy.step_x width s).x = s.x + RandomWalkEnemy.speed ∧
       ((RandomWalkEnemy.step_x width s).dirX = HDir.moving_left ↔
         s.x + RandomWalkEnemy.speed > width)) ∧
     (s.dirX = HDir.moving_left →
       (RandomWalkEnemy.step_x width s).x = s.x - RandomWalkEnemy.speed ∧
       ((RandomWalkEnemy.step_x width s).dirX = HDir.moving_right ↔
         s.x - RandomWalkEnemy.speed < 0))) ∧
    ((RandomWalkEnemy.step_y height s).x = s.x ∧
     (RandomWalkEnemy.step_y height s).dirX = s.dirX ∧
     (s.dirY = VDir.moving_up →
       (RandomWalkEnemy.step_y height s).y = s.y + RandomWalkEnemy.speed ∧
       ((RandomWalkEnemy.step_y height s).dirY = VDir.moving_down ↔
         s.y + RandomWalkEnemy.speed > height)) ∧
     (s.dirY = VDir.moving_down →
       (RandomWalkEnemy.step_y height s).y = s.y - RandomWalkEnemy.speed ∧
       ((RandomWalkEnemy.step_y height s).dirY = VDir.moving_up ↔
         s.y - RandomWalkEnemy.speed < 0))) ∧
    RandomWalkEnemy.update width height s =
      RandomWalkEnemy.step_y height (RandomWalkEnemy.step_x width s) := by
  obtain ⟨x, y, dx, dy⟩ := s
  refine ⟨?_, ?_, rfl⟩ <;>
    cases dx <;> cases dy <;>
      simp only [RandomWalkEnemy.step_x, RandomWalkEnemy.step_y] <;>
      split_ifs <;> simp_all

/-- Witness for C5: a rightward/upward walker at `(100, 50)` on a 100×100
canvas steps to `x = 103` and reverses its horizontal direction. -/
theorem C5_random_walk_reverses_witness :
    (RandomWalkEnemy.step_x 100 ⟨100, 50, .moving_right, .moving_up⟩).x =
      100 + RandomWalkEnemy.speed ∧
    ((RandomWalkEnemy.step_x 100 ⟨100, 50, .moving_right, .moving_up⟩).dirX =
      HDir.moving_left ↔ (100 : ℚ) + RandomWalkEnemy.speed > 100) :=
  ((C5_random_walk_reverses 100 100 ⟨100, 50, .moving_right, .moving_up⟩).1.2.2.1 rfl)

/-- Counterexample to C5 as stated: on a 100×100 canvas, an enemy at
`x = 100` moving right steps past the right edge to `x = 103` and stays
there (direction flips); its position does not wrap to the opposite side of
the canvas (it is not even inside `[0, width]`). -/
theorem C5_counterexample :
    (RandomWalkEnemy.update 100 100 ⟨100, 50, .moving_right, .moving_up⟩).x = 103 ∧
    ¬ ((RandomWalkEnemy.update 100 100 ⟨100, 50, .moving_right, .moving_up⟩).x ≤ 100) := by
  have h : RandomWalkEnemy.update 100 100 ⟨100, 50, .moving_right, .moving_up⟩ =
      ⟨103, 53, .moving_left, .moving_up⟩ := by
    unfold RandomWalkEnemy.update RandomWalkEnemy.step_x RandomWalkEnemy.step_y
      RandomWalkEnemy.speed
    norm_num
  rw [h]
  norm_num

/-! ## Bearing-movement helper lemmas -/

/-- `cos (atan2 y x) = x / sqrt (x^2 + y^2)` away from the origin. -/
theorem atan2_cos (y x : ℝ) (h : ¬(x = 0 ∧ y = 0)) :
    Real.cos (atan2 y x) = x / Real.sqrt (x ^ 2 + y ^ 2) := by
  have hz : (⟨x, y⟩ : ℂ) ≠ 0 := by
    intro hzero
    exact h ⟨congrArg Complex.re hzero, congrArg Complex.im hzero⟩
  unfold atan2
  rw [Complex.cos_arg hz, Complex.abs_apply, Complex.normSq_mk]
  dsimp only
  rw [show x * x + y * y = x ^ 2 + y ^ 2 by ring]

/-- `sin (atan2 y x) = y / sqrt (x^2 + y^2)` (also at the origin, where both
sides vanish). -/
theorem atan2_sin (y x : ℝ) :
    Real.sin (atan2 y x) = y / Real.sqrt (x ^ 2 + y ^ 2) := by
  unfold atan2
  rw [Complex.sin_arg, Complex.abs_apply, Complex.normSq_mk]
  dsimp only
  rw [show x * x + y * y = x ^ 2 + y ^ 2 by ring]

/-- A displacement of `speed` along any bearing has Euclidean length
`speed`. -/
theorem bearing_step_length (sp t : ℝ) (h : 0 ≤ sp) :
    Real.sqrt ((sp * Real.cos t) ^ 2 + (sp * Real.sin t) ^ 2) = sp := by
  rw [show (sp * Real.cos t) ^ 2 + (sp * Real.sin t) ^ 2 =
        sp ^ 2 * (Real.cos t ^ 2 + Real.sin t ^ 2) by ring,
    Real.cos_sq_add_sin_sq, mul_one, Real.sqrt_sq h]

/-- `Player.update` with an active waypoint, written out. -/
theorem Player.update_active (g : PlayerGame) (h : g.wayActive = true) :
    Player.update g =
      { g with
        px := g.px + g.speed * Real.cos (atan2 (g.wy - g.py) (g.wx - g.px))
        py := g.py + g.speed * Real.sin (atan2 (g.wy - g.py) (g.wx - g.px))
        wayActive :=
          if Real.sqrt
              ((g.px + g.speed * Real.cos (atan2 (g.wy - g.py) (g.wx - g.px)) - g.wx) ^ 2 +
               (g.py + g.speed * Real.sin (atan2 (g.wy - g.py) (g.wx - g.px)) - g.wy) ^ 2) <
              g.speed
          then false else g.wayActive
        winTriggered := g.winTriggered ||
          decide (Home.containsP g.homeX g.homeY g.homeSize g.px g.py) } := by
  unfold Player.update
  dsimp only
  rw [if_pos h]

/-- `Player.update` with an inactive waypoint only evaluates the win check. -/
theorem Player.update_inactive (g : PlayerGame) (h : g.wayActive = false) :
    Player.update g =
      { g with
        winTriggered := g.winTriggered ||
          decide (Home.containsP g.homeX g.homeY g.homeSize g.px g.py) } := by
  unfold Player.update
  dsimp only
  rw [if_neg (by rw [h]; simp)]

/-- In every branch, `Player.update` sets the win flag from the previous
flag and the real home's containment check alone. -/
theorem Player.update_winTriggered (g : PlayerGame) :
    (Player.update g).winTriggered =
      (g.winTriggered ||
        decide (Home.containsP g.homeX g.homeY g.homeSize g.px g.py)) := by
  by_cases h : g.wayActive = true
  · rw [Player.update_active g h]
  · rw [Player.update_inactive g (Bool.not_eq_true _ |>.mp h)]

/-! ## Claim C4 -/

/-- C4 (confirmed): one update of a chasing or boss enemy displaces it by
exactly `(speed*cos(atan2(dy,dx)), speed*sin(atan2(dy,dx)))`; when the
enemy is not already on the player, this is a step of Euclidean length
`speed` along the unit bearing vector toward the player. -/
theorem C4_bearing_movement (px py : ℝ) (c : ChaseState) (b : BossState)
    (hcs : 0 ≤ c.speed) (hbs : 0 ≤ b.speed)
    (hc0 : ¬(px - c.x = 0 ∧ py - c.y = 0))
    (hb0 : ¬(px - b.x = 0 ∧ py - b.y = 0)) :
    (((ChasingEnemy.update px py c).x - c.x =
        c.speed * Real.cos (atan2 (py - c.y) (px - c.x)) ∧
      (ChasingEnemy.update px py c).y - c.y =
        c.speed * Real.sin (atan2 (py - c.y) (px - c.x))) ∧
     Real.sqrt (((ChasingEnemy.update px py c).x - c.x) ^ 2 +
        ((ChasingEnemy.update px py c).y - c.y) ^ 2) = c.speed ∧
     ((ChasingEnemy.update px py c).x - c.x =
        c.speed * (px - c.x) / Real.sqrt ((px - c.x) ^ 2 + (py - c.y) ^ 2) ∧
      (ChasingEnemy.update px py c).y - c.y =
        c.speed * (py - c.y) / Real.sqrt ((px - c.x) ^ 2 + (py - c.y) ^ 2))) ∧
    (((BossEnemy.update px py b).x - b.x =
        b.speed * Real.cos (atan2 (py - b.y) (px - b.x)) ∧
      (BossEnemy.update px py b).y - b.y =
        b.speed * Real.sin (atan2 (py - b.y) (px - b.x))) ∧
     Real.sqrt (((BossEnemy.update px py b).x - b.x) ^ 2 +
        ((BossEnemy.update px py b).y - b.y) ^ 2) = b.speed ∧
     ((BossEnemy.update px py b).x - b.x =
        b.speed * (px - b.x) / Real.sqrt ((px - b.x) ^ 2 + (py - b.y) ^ 2) ∧
      (BossEnemy.update px py b).y - b.y =
        b.speed * (py - b.y) / Real.sqrt ((px - b.x) ^ 2 + (py - b.y) ^ 2))) := by
  have hcx : (ChasingEnemy.update px py c).x =
      c.x + c.speed * Real.cos (atan2 (py - c.y) (px - c.x)) := rfl
  have hcy : (ChasingEnemy.update px py c).y =
      c.y + c.speed * Real.sin (atan2 (py - c.y) (px - c.x)) := rfl
  have hbx : (BossEnemy.update px py b).x =
      b.x + b.speed * Real.cos (atan2 (py - b.y) (px - b.x)) := rfl
  have hby : (BossEnemy.update px py b).y =
      b.y + b.speed * Real.sin (atan2 (py - b.y) (px - b.x)) := rfl
  refine ⟨⟨⟨?_, ?_⟩, ?_, ?_, ?_⟩, ⟨?_, ?_⟩, ?_, ?_, ?_⟩
  · rw [hcx]; ring
  · rw [hcy]; ring
  · rw [hcx, hcy,
      show c.x + c.speed * Real.cos (atan2 (py - c.y) (px - c.x)) - c.x =
        c.speed * Real.cos (atan2 (py - c.y) (px - c.x)) by ring,
      show c.y + c.speed * Real.sin (atan2 (py - c.y) (px - c.x)) - c.y =
        c.speed * Real.sin (atan2 (py - c.y) (px - c.x)) by ring]
    exact bearing_step_length _ _ hcs
  · rw [hcx, atan2_cos _ _ hc0, mul_div_assoc]; ring
  · rw [hcy, atan2_sin, mul_div_assoc]; ring
  · rw [hbx]; ring
  · rw [hby]; ring
  · rw [hbx, hby,
      show b.x + b.speed * Real.cos (atan2 (py - b.y) (px - b.x)) - b.x =
        b.speed * Real.cos (atan2 (py - b.y) (px - b.x)) by ring,
      show b.y + b.speed * Real.sin (atan2 (py - b.y) (px - b.x)) - b.y =
        b.speed * Real.sin (atan2 (py - b.y) (px - b.x)) by ring]
    exact bearing_step_length _ _ hbs
  · rw [hbx, atan2_cos _ _ hb0, mul_div_assoc]; ring
  · rw [hby, atan2_sin, mul_div_assoc]; ring

/-- Witness for C4: a chasing enemy and a boss at the origin with speed 3
and the player at `(8, 0)` each move a step of length exactly 3. -/
theorem C4_bearing_movement_witness :
    Real.sqrt (((ChasingEnemy.update 8 0 ⟨0, 0, 3⟩).x - (⟨0, 0, 3⟩ : ChaseState).x) ^ 2 +
        ((ChasingEnemy.update 8 0 ⟨0, 0, 3⟩).y - (⟨0, 0, 3⟩ : ChaseState).y) ^ 2) =
      (⟨0, 0, 3⟩ : ChaseState).speed ∧
    Real.sqrt (((BossEnemy.update 8 0 ⟨0, 0, 20, 3⟩).x - (⟨0, 0, 20, 3⟩ : BossState).x) ^ 2 +
        ((BossEnemy.update 8 0 ⟨0, 0, 20, 3⟩).y - (⟨0, 0, 20, 3⟩ : BossState).y) ^ 2) =
      (⟨0, 0, 20, 3⟩ : BossState).speed := by
  have h := C4_bearing_movement 8 0 ⟨0, 0, 3⟩ ⟨0, 0, 20, 3⟩
    (by norm_num) (by norm_num) (by norm_num) (by norm_num)
  exact ⟨h.1.2.1, h.2.2.1⟩

/-! ## Claim C7 -/

/-- C7 (corrected): every `BossEnemy.update` adds `growth_rate = 0.7` to the
size and `0.001` to the speed; the fake homes are added by
`generate_fake_homes` — invoked by `EnemyGenerator.create_enemy` right after
constructing the boss — which appends exactly `num_fake_homes` fake `Home`
elements, while the constructor itself adds no elements. -/
theorem C7_boss_growth_fake_homes (px py : ℝ) (s : BossState)
    (rand : ℕ → ℤ × ℤ) (elements : List GameElem) :
    (BossEnemy.update px py s).size = s.size + BossEnemy.growth_rate ∧
    (BossEnemy.update px py s).speed = s.speed + 0.001 ∧
    BossEnemy.init_added_elements = [] ∧
    ((BossEnemy.generate_fake_homes rand elements).filter GameElem.isHome).length =
      (elements.filter GameElem.isHome).length + BossEnemy.num_fake_homes ∧
    ((EnemyGenerator.create_enemy_boss_elements rand elements).filter
        GameElem.isHome).length =
      (elements.filter GameElem.isHome).length + BossEnemy.num_fake_homes := by
  have hmap : ∀ l : List ℕ,
      ((l.map (fun i => GameElem.home (rand i).1 (rand i).2 20)).filter
        GameElem.isHome).length = l.length := by
    intro l
    induction l with
    | nil => rfl
    | cons a t ih => simpa [GameElem.isHome] using ih
  have hgen : ∀ es : List GameElem,
      ((BossEnemy.generate_fake_homes rand es).filter GameElem.isHome).length =
        (es.filter GameElem.isHome).length + BossEnemy.num_fake_homes := by
    intro es
    unfold BossEnemy.generate_fake_homes
    rw [List.filter_append, List.length_append, hmap, List.length_range]
  refine ⟨rfl, rfl, rfl, hgen elements, ?_⟩
  unfold EnemyGenerator.create_enemy_boss_elements
  rw [List.filter_append, List.length_append, hgen]
  simp [GameElem.isHome, BossEnemy.init_added_elements]

/-- Counterexample to C7 as stated: constructing a `BossEnemy` adds zero
`Home` elements to the game, not `num_fake_homes = 5` (the fake homes only
appear when `generate_fake_homes` is called afterwards). -/
theorem C7_counterexample :
    (BossEnemy.init_added_elements.filter GameElem.isHome).length = 0 ∧
    BossEnemy.num_fake_homes ≠ 0 :=
  ⟨rfl, by decide⟩

/-! ## Claim C3 -/

/-- C3 (corrected): with an active waypoint (and the player not already on
it), `Player.update` moves the player by exactly its speed along the unit
bearing toward the waypoint; the waypoint is deactivated exactly when the
player's distance to it *after* the move is less than the speed (not only
on exact arrival); the win fires exactly when the player's pre-move
position is inside the home's box. -/
theorem C3_player_update (g : PlayerGame)
    (hact : g.wayActive = true)
    (hsp : 0 ≤ g.speed)
    (hne : ¬(g.wx - g.px = 0 ∧ g.wy - g.py = 0))
    (hwin : g.winTriggered = false) :
    Real.sqrt (((Player.update g).px - g.px) ^ 2 +
        ((Player.update g).py - g.py) ^ 2) = g.speed ∧
    ((Player.update g).px - g.px =
        g.speed * (g.wx - g.px) / Real.sqrt ((g.wx - g.px) ^ 2 + (g.wy - g.py) ^ 2) ∧
     (Player.update g).py - g.py =
        g.speed * (g.wy - g.py) / Real.sqrt ((g.wx - g.px) ^ 2 + (g.wy - g.py) ^ 2)) ∧
    ((Player.update g).wayActive = false ↔
      Real.sqrt (((Player.update g).px - g.wx) ^ 2 +
        ((Player.update g).py - g.wy) ^ 2) < g.speed) ∧
    ((Player.update g).winTriggered = true ↔
      Home.containsP g.homeX g.homeY g.homeSize g.px g.py) := by
  rw [Player.update_active g hact]
  dsimp only
  refine ⟨?_, ⟨?_, ?_⟩, ?_, ?_⟩
  · rw [show g.px + g.speed * Real.cos (atan2 (g.wy - g.py) (g.wx - g.px)) - g.px =
        g.speed * Real.cos (atan2 (g.wy - g.py) (g.wx - g.px)) by ring,
      show g.py + g.speed * Real.sin (atan2 (g.wy - g.py) (g.wx - g.px)) - g.py =
        g.speed * Real.sin (atan2 (g.wy - g.py) (g.wx - g.px)) by ring]
    exact bearing_step_length _ _ hsp
  · rw [atan2_cos _ _ hne, mul_div_assoc]; ring
  · rw [atan2_sin, mul_div_assoc]; ring
  · rw [hact]
    split_ifs with hd
    · simp only [eq_self_iff_true, true_iff]
      exact hd
    · constructor
      · intro hfalse
        exact absurd hfalse (by simp)
      · intro hlt
        exact absurd hlt hd
  · rw [hwin, Bool.false_or, decide_eq_true_iff]

/-- Witness for C3: player at the origin with speed 3, waypoint at
`(8, 0)`: the step has length exactly 3. -/
theorem C3_player_update_witness :
    Real.sqrt (((Player.update ⟨0, 0, 3, true, 8, 0, 100, 0, 20, [], false⟩).px -
          (⟨0, 0, 3, true, 8, 0, 100, 0, 20, [], false⟩ : PlayerGame).px) ^ 2 +
        ((Player.update ⟨0, 0, 3, true, 8, 0, 100, 0, 20, [], false⟩).py -
          (⟨0, 0, 3, true, 8, 0, 100, 0, 20, [], false⟩ : PlayerGame).py) ^ 2) =
      (⟨0, 0, 3, true, 8, 0, 100, 0, 20, [], false⟩ : PlayerGame).speed :=
  (C3_player_update ⟨0, 0, 3, true, 8, 0, 100, 0, 20, [], false⟩ rfl
    (by norm_num) (by norm_num) rfl).1

/-- Counterexample to C3 as stated ("the waypoint becomes inactive exactly
when the player reaches it"): player at the origin with speed 5 and the
waypoint at `(4, 0)`. The player overshoots to `(5, 0)`; the post-move
distance to the waypoint is `1 < 5`, so the waypoint is deactivated even
though the player is not at the waypoint. -/
theorem C3_counterexample :
    (Player.update ⟨0, 0, 5, true, 4, 0, 100, 0, 20, [], false⟩).wayActive = false ∧
    ¬((Player.update ⟨0, 0, 5, true, 4, 0, 100, 0, 20, [], false⟩).px =
        (⟨0, 0, 5, true, 4, 0, 100, 0, 20, [], false⟩ : PlayerGame).wx ∧
      (Player.update ⟨0, 0, 5, true, 4, 0, 100, 0, 20, [], false⟩).py =
        (⟨0, 0, 5, true, 4, 0, 100, 0, 20, [], false⟩ : PlayerGame).wy) := by
  have harg : atan2 ((0 : ℝ) - 0) ((4 : ℝ) - 0) = 0 := by
    rw [show ((0 : ℝ) - 0) = 0 by ring, show ((4 : ℝ) - 0) = 4 by ring]
    unfold atan2
    rw [show (⟨4, 0⟩ : ℂ) = ((4 : ℝ) : ℂ) from Complex.ext rfl rfl]
    exact Complex.arg_ofReal_of_nonneg (by norm_num)
  rw [Player.update_active _ rfl]
  dsimp only
  rw [harg, Real.cos_zero, Real.sin_zero]
  rw [show (0 : ℝ) + 5 * 1 - 4 = 1 by norm_num,
    show (0 : ℝ) + 5 * 0 - 0 = 0 by norm_num,
    show ((1 : ℝ) ^ 2 + (0 : ℝ) ^ 2) = 1 by norm_num,
    Real.sqrt_one]
  rw [if_pos (by norm_num)]
  refine ⟨rfl, ?_⟩
  intro hcontra
  have := hcontra.1
  norm_num at this

/-! ## Claim C9 -/

/-- C9 (confirmed): with an inactive waypoint and the player outside the
home's box, `Player.update` is the identity: position, waypoint state, and
every other field are unchanged. -/
theorem C9_inactive_waypoint_frame (g : PlayerGame)
    (hact : g.wayActive = false)
    (hout : ¬ Home.containsP g.homeX g.homeY g.homeSize g.px g.py) :
    Player.update g = g := by
  rw [Player.update_inactive g hact, decide_eq_false hout, Bool.or_false]

/-- Witness for C9: an inactive-waypoint state away from the home is a
fixed point of `Player.update`. -/
theorem C9_inactive_waypoint_frame_witness :
    Player.update ⟨0, 0, 5, false, 8, 0, 100, 0, 20, [], false⟩ =
      ⟨0, 0, 5, false, 8, 0, 100, 0, 20, [], false⟩ :=
  C9_inactive_waypoint_frame ⟨0, 0, 5, false, 8, 0, 100, 0, 20, [], false⟩ rfl
    (by norm_num [Home.containsP])

/-! ## Claim C10 -/

/-- C10 (confirmed): `Player.update` sets the win flag exactly when the
single real home (`game.home`) contains the player's position; the game's
element list — in particular any fake homes appended by
`BossEnemy.generate_fake_homes` — never affects the win check. -/
theorem C10_win_only_real_home (g : PlayerGame) (l₁ l₂ : List GameElem)
    (rand : ℕ → ℤ × ℤ) (hw : g.winTriggered = false) :
    ((Player.update g).winTriggered = true ↔
        Home.containsP g.homeX g.homeY g.homeSize g.px g.py) ∧
    (Player.update { g with elements := l₁ }).winTriggered =
      (Player.update { g with elements := l₂ }).winTriggered ∧
    (Player.update { g with elements :=
        BossEnemy.generate_fake_homes rand g.elements }).winTriggered =
      (Player.update g).winTriggered := by
  refine ⟨?_, ?_, ?_⟩
  · rw [Player.update_winTriggered, hw, Bool.false_or, decide_eq_true_iff]
  · rw [Player.update_winTriggered, Player.update_winTriggered]
  · rw [Player.update_winTriggered, Player.update_winTriggered]

/-- Witness for C10: with the player standing on the real home, the win
flag is set. -/
theorem C10_win_only_real_home_witness :
    ((Player.update ⟨0, 0, 5, false, 8, 0, 0, 0, 20, [], false⟩).winTriggered = true ↔
      Home.containsP 0 0 20 0 0) :=
  (C10_win_only_real_home ⟨0, 0, 5, false, 8, 0, 0, 0, 20, [], false⟩
    [] [GameElem.home 1 2 20] (fun _ => (3, 4)) rfl).1

end TurtleAdventure
